import Mathlib

/-!
Shallow embedding of the routing, filtered-delivery and resilient-delivery
core of the agentic-redpanda repository, together with theorems settling the
frozen claims about it.  Python sources embedded here:

* `src/agentic_redpanda/schemas/message.py`
* `src/agentic_redpanda/core/topic_validator.py`
* `src/agentic_redpanda/core/subscription_manager.py`
* `src/agentic_redpanda/core/message_router.py`
* `src/agentic_redpanda/core/conversation_manager.py`
* `src/agentic_redpanda/core/error_handler.py`

Modelling conventions: Python `datetime` values are integer seconds since the
epoch (`Int`), `timedelta` values are integer seconds, float delays are
rationals, Python dictionaries are association lists looked up with
`List.lookup` (first binding wins, as dictionaries hold unique keys), and a
Python callable that may raise is a Lean function into `Except String`.
Nondeterministic inputs of the source (wall-clock reads, fresh UUIDs) are
explicit parameters (`now`, `freshId`, the fractional clock read `r`).
-/

/-! ## Python string primitives -/

/-- Python `str.lower()` restricted to ASCII, which is all the embedded code
and claims use. -/
def pyLower (s : String) : String :=
  ⟨s.data.map Char.toLower⟩

/-- Whether `needle` is a leading segment of `hay`. -/
def listStartsWith (hay needle : List Char) : Bool :=
  match hay, needle with
  | _, [] => true
  | [], _ :: _ => false
  | c :: cs, d :: ds => c == d && listStartsWith cs ds

/-- Whether `needle` occurs consecutively somewhere in `hay`. -/
def listHasInfix (hay needle : List Char) : Bool :=
  match hay with
  | [] => listStartsWith [] needle
  | _ :: rest => listStartsWith hay needle || listHasInfix rest needle

/-- Python substring test `needle in hay`. -/
def pyContains (hay needle : String) : Bool :=
  listHasInfix hay.data needle.data

/-- Python `str.startswith`. -/
def pyStartsWith (s p : String) : Bool :=
  listStartsWith s.data p.data

/-- Python `str.endswith`. -/
def pyEndsWith (s p : String) : Bool :=
  listStartsWith s.data.reverse p.data.reverse

/-! ## Message schema (`schemas/message.py`) -/

inductive MessageType where
  | text | task | result | query | response | notification | error | heartbeat
deriving DecidableEq, Repr

/-- String value of the `MessageType` str-enum. -/
def MessageType.val : MessageType → String
  | .text => "text" | .task => "task" | .result => "result" | .query => "query"
  | .response => "response" | .notification => "notification"
  | .error => "error" | .heartbeat => "heartbeat"

inductive MessagePriority where
  | low | normal | high | urgent
deriving DecidableEq, Repr

/-- String value of the `MessagePriority` str-enum. -/
def MessagePriority.val : MessagePriority → String
  | .low => "low" | .normal => "normal" | .high => "high" | .urgent => "urgent"

/-- An `AgentMessage`; fields not used by the embedded core logic
(`sender_name`, `reply_to`, correlation and response fields, `tags`) are kept
where some embedded function reads them and dropped otherwise.  Metadata
values are strings (the embedded code only compares them for equality). -/
structure AgentMessage where
  id : Nat
  timestamp : Int
  sender_id : String
  sender_name : String
  sender_role : String
  message_type : MessageType
  priority : MessagePriority
  content : String
  topic : String
  metadata : List (String × String)
  ttl : Option Int
  retry_count : Nat
  max_retries : Nat

/-- Source `AgentMessage.is_expired`: age in seconds strictly above `ttl`. -/
def AgentMessage.is_expired (m : AgentMessage) (now : Int) : Bool :=
  match m.ttl with
  | none => false
  | some t => decide (now - m.timestamp > t)

/-- Source `AgentMessage.should_retry`. -/
def AgentMessage.should_retry (m : AgentMessage) (now : Int) : Bool :=
  decide (m.retry_count < m.max_retries) && !(m.is_expired now)

/-! ## Topic validator (`core/topic_validator.py`) -/

inductive PermissionLevel where
  | read | write | admin | owner
deriving DecidableEq, Repr

inductive TopicType where
  | general | team | project | «private» | system | random
deriving DecidableEq, Repr

structure TopicPermission where
  agent_id : String
  permission_level : PermissionLevel
  granted_by : String
  granted_at : String
deriving DecidableEq, Repr

/-- Which validation error message was appended; one tag per distinct
`errors.append` site of `validate_topic_name`. -/
inductive TopicNameError where
  | tooShort | tooLong | reserved | invalidChars
  | consecutiveHyphens | edgeHyphen | patternMismatch
deriving DecidableEq, Repr

namespace TopicValidator

def min_topic_length : Nat := 3
def max_topic_length : Nat := 50

def reserved_topics : List String :=
  ["system", "admin", "config", "logs", "metrics", "health"]

/-- Character class `[a-z0-9-]` used by the topic-name patterns. -/
def isTopicChar (c : Char) : Bool :=
  (decide ('a' ≤ c) && decide (c ≤ 'z')) ||
  (decide ('0' ≤ c) && decide (c ≤ '9')) || decide (c = '-')

/-- Python `re.match(r"^[a-z0-9-]+$", s)`: nonempty and all characters in
the class. -/
def charsetOk (s : String) : Bool :=
  !s.data.isEmpty && s.data.all isTopicChar

/-- Python `re.match(pattern, s)` for the anchored per-type patterns in
`self.topic_patterns`. -/
def matchesTypePattern (t : TopicType) (s : String) : Bool :=
  match t with
  | .team => pyStartsWith s "team-" && charsetOk (s.drop 5)
  | .project => pyStartsWith s "project-" && charsetOk (s.drop 8)
  | .«private» => pyStartsWith s "private-" && charsetOk (s.drop 8)
  | .general => charsetOk s
  | .random => s == "random"
  | .system => false

/-- Whether `topic_patterns` has an entry for the type (`system` has none, so
for it the `topic_type in self.topic_patterns` guard fails). -/
def hasTypePattern (t : TopicType) : Bool :=
  match t with
  | .system => false
  | _ => true

/-- Errors accumulated by `validate_topic_name`, in source order.  Warnings
and suggestions do not influence validity and are not modelled. -/
def topicNameErrors (topic_name : String) (topic_type : Option TopicType) :
    List TopicNameError :=
  (if topic_name.length < min_topic_length then [TopicNameError.tooShort]
   else if topic_name.length > max_topic_length then [TopicNameError.tooLong]
   else []) ++
  (if reserved_topics.contains (pyLower topic_name) then [TopicNameError.reserved] else []) ++
  (if !charsetOk topic_name then [TopicNameError.invalidChars] else []) ++
  (if pyContains topic_name "--" then [TopicNameError.consecutiveHyphens] else []) ++
  (if pyStartsWith topic_name "-" || pyEndsWith topic_name "-" then [TopicNameError.edgeHyphen] else []) ++
  (match topic_type with
   | some t =>
     if hasTypePattern t && !matchesTypePattern t topic_name then
       [TopicNameError.patternMismatch]
     else []
   | none => [])

/-- Source `validate_topic_name` restricted to its `is_valid` verdict:
`is_valid = len(errors) == 0`. -/
def validate_topic_name (topic_name : String) (topic_type : Option TopicType) : Bool :=
  (topicNameErrors topic_name topic_type).isEmpty

/-- Permission state: `self.topic_permissions`, a dictionary from topic to
list of permissions. -/
def PermState := List (String × List TopicPermission)

def level_hierarchy : PermissionLevel → Nat
  | .read => 1 | .write => 2 | .admin => 3 | .owner => 4

/-- Source `_permission_level_sufficient`. -/
def permission_level_sufficient (current required : PermissionLevel) : Bool :=
  decide (level_hierarchy current ≥ level_hierarchy required)

/-- Source `check_permission`: absent topic denies; otherwise the first
permission record of the agent decides. -/
def check_permission (st : PermState) (topic agent_id : String)
    (required : PermissionLevel) : Bool :=
  match List.lookup topic st with
  | none => false
  | some perms =>
    match perms.find? (fun p => p.agent_id == agent_id) with
    | some p => permission_level_sufficient p.permission_level required
    | none => false

/-- Update loop of `grant_permission`: the first record of the agent is
overwritten in place, otherwise a new record is appended. -/
def grantIntoList (perms : List TopicPermission) (agent_id : String)
    (level : PermissionLevel) (granted_by : String) : List TopicPermission :=
  match perms with
  | [] => [{ agent_id := agent_id, permission_level := level,
             granted_by := granted_by, granted_at := "now" }]
  | p :: ps =>
    if p.agent_id == agent_id then
      { p with permission_level := level, granted_by := granted_by } :: ps
    else
      p :: grantIntoList ps agent_id level granted_by

/-- Replace the binding of `topic` in the association list. -/
def setPerm (st : PermState) (topic : String) (perms : List TopicPermission) : PermState :=
  match st with
  | [] => [(topic, perms)]
  | (t, ps) :: rest =>
    if t == topic then (t, perms) :: rest else (t, ps) :: setPerm rest topic perms

/-- Source `grant_permission` (always returns `True`; we return the new
state). -/
def grant_permission (st : PermState) (topic agent_id : String)
    (level : PermissionLevel) (granted_by : String) : PermState :=
  let perms := (List.lookup topic st).getD []
  setPerm st topic (grantIntoList perms agent_id level granted_by)

end TopicValidator

/-! ## Subscription manager (`core/subscription_manager.py`) -/

inductive SubscriptionType where
  | all_messages | role_based | content_filtered | priority_filtered | custom
deriving DecidableEq, Repr

/-- Filter criteria.  Python truthiness guards (`if filter_criteria.foo:`)
treat `None` and an empty collection identically, so optional collections are
plain lists/assoc-lists with `[]` for absent.  `min_priority` stays an
`Option` (an enum value is always truthy), as do `content_regex` (`none`
covers both `None` and the falsy empty pattern) and `custom_filter`. -/
structure SubscriptionFilter where
  message_types : List MessageType
  min_priority : Option MessagePriority
  content_keywords : List String
  content_regex : Option String
  allowed_senders : List String
  blocked_senders : List String
  allowed_roles : List String
  blocked_roles : List String
  metadata_filters : List (String × String)
  custom_filter : Option (AgentMessage → Except String Bool)

/-- Filter accepting everything: all fields absent. -/
def SubscriptionFilter.empty : SubscriptionFilter :=
  ⟨[], none, [], none, [], [], [], [], [], none⟩

/-- A topic subscription.  The stored handler is an opaque callable in the
source; only its presence matters to the embedded logic, so it is dropped. -/
structure TopicSubscription where
  topic : String
  agent_id : String
  subscription_type : SubscriptionType
  filter_criteria : Option SubscriptionFilter
  active : Bool
  message_count : Nat
  last_message_at : Option Int

/-- The `priority_order` dictionary shared by the subscription manager and
the message router (`.get` with default 0 never hits the default: the enum
is total). -/
def priority_order : MessagePriority → Nat
  | .low => 0 | .normal => 1 | .high => 2 | .urgent => 3

/-- Python `any(keyword.lower() in content_lower for keyword in keywords)`. -/
def keywordAnyMatch (keywords : List String) (content : String) : Bool :=
  keywords.any (fun k => pyContains (pyLower content) (pyLower k))

/-- Python dict-subset test used for metadata filters: every (key, value)
pair must be present and equal in the message metadata. -/
def metadataAllMatch (filters meta : List (String × String)) : Bool :=
  filters.all (fun kv =>
    match List.lookup kv.fst meta with
    | some v => v == kv.snd
    | none => false)

namespace SubscriptionManager

/-- Source `_message_matches_filter`.  `regexSearch pat s` is the semantics
of `re.search(pat, s, re.IGNORECASE)`, an external library call kept
abstract; no claim depends on it.  The trailing custom-filter call is
wrapped in `try/except` returning `False`, embedded as a match on
`Except`. -/
def message_matches_filter (regexSearch : String → String → Bool)
    (message : AgentMessage) (filter_criteria : Option SubscriptionFilter) : Bool :=
  match filter_criteria with
  | none => true
  | some fc =>
    if !fc.message_types.isEmpty && !fc.message_types.contains message.message_type then
      false
    else if (match fc.min_priority with
             | some mp => decide (priority_order message.priority < priority_order mp)
             | none => false) then
      false
    else if !fc.content_keywords.isEmpty &&
        !keywordAnyMatch fc.content_keywords message.content then
      false
    else if (match fc.content_regex with
             | some pat => !regexSearch pat message.content
             | none => false) then
      false
    else if !fc.allowed_senders.isEmpty && !fc.allowed_senders.contains message.sender_id then
      false
    else if !fc.blocked_senders.isEmpty && fc.blocked_senders.contains message.sender_id then
      false
    else if !fc.allowed_roles.isEmpty && !fc.allowed_roles.contains message.sender_role then
      false
    else if !fc.blocked_roles.isEmpty && fc.blocked_roles.contains message.sender_role then
      false
    else if !fc.metadata_filters.isEmpty &&
        !metadataAllMatch fc.metadata_filters message.metadata then
      false
    else
      match fc.custom_filter with
      | some f =>
        match f message with
        | .ok b => b
        | .error _ => false
      | none => true

/-- Manager state: the two subscription dictionaries.  Handler storage only
maps keys to opaque callables, so just the key set is kept. -/
structure State where
  subscriptions : List (String × List TopicSubscription)
  agent_subscriptions : List (String × List TopicSubscription)
  handler_keys : List String

/-- Routing loop body of `route_message` over the subscription list of the
topic: returns the matching subscriptions (in list order, with counters
bumped) and the updated list (the source mutates the shared objects). -/
def routeLoop (regexSearch : String → String → Bool) (message : AgentMessage) :
    List TopicSubscription → List TopicSubscription × List TopicSubscription
  | [] => ([], [])
  | s :: rest =>
    let r := routeLoop regexSearch message rest
    if !s.active then (r.1, s :: r.2)
    else if s.agent_id == message.sender_id then (r.1, s :: r.2)
    else if message_matches_filter regexSearch message s.filter_criteria then
      let s2 := { s with message_count := s.message_count + 1,
                         last_message_at := some message.timestamp }
      (s2 :: r.1, s2 :: r.2)
    else (r.1, s :: r.2)

/-- Replace the binding of `topic` in the subscriptions dictionary. -/
def setSubs (st : List (String × List TopicSubscription)) (topic : String)
    (subs : List TopicSubscription) : List (String × List TopicSubscription) :=
  match st with
  | [] => [(topic, subs)]
  | (t, l) :: rest =>
    if t == topic then (t, subs) :: rest else (t, l) :: setSubs rest topic subs

/-- Source `route_message`: unknown topic yields `[]`; otherwise active
subscriptions of other agents whose filter matches, each with its message
counter incremented and last-delivery timestamp set. -/
def route_message (regexSearch : String → String → Bool) (st : State)
    (message : AgentMessage) : List TopicSubscription × State :=
  match List.lookup message.topic st.subscriptions with
  | none => ([], st)
  | some subs =>
    let r := routeLoop regexSearch message subs
    (r.1, { st with subscriptions := setSubs st.subscriptions message.topic r.2 })

/-- Remove the binding of a key from an association list (Python `del`). -/
def delKey {β : Type} (st : List (String × β)) (key : String) : List (String × β) :=
  match st with
  | [] => []
  | (k, v) :: rest => if k == key then rest else (k, v) :: delKey rest key

/-- Source `unsubscribe_agent_from_topic`.  Note `removed` is set to `True`
as soon as the topic key exists, independently of whether the agent held a
subscription there. -/
def unsubscribe_agent_from_topic (st : State) (agent_id topic : String) :
    Bool × State :=
  let removed := (List.lookup topic st.subscriptions).isSome
  let subscriptions :=
    match List.lookup topic st.subscriptions with
    | none => st.subscriptions
    | some subs =>
      let kept := subs.filter (fun (s : TopicSubscription) =>
        !(s.agent_id == agent_id && s.topic == topic))
      if kept.isEmpty then delKey st.subscriptions topic
      else setSubs st.subscriptions topic kept
  let agent_subscriptions :=
    match List.lookup agent_id st.agent_subscriptions with
    | none => st.agent_subscriptions
    | some subs =>
      let kept := subs.filter (fun (s : TopicSubscription) => s.topic != topic)
      if kept.isEmpty then delKey st.agent_subscriptions agent_id
      else setSubs st.agent_subscriptions agent_id kept
  let handler_keys := (st.handler_keys).filter (fun k => k != agent_id ++ ":" ++ topic)
  (removed, { subscriptions := subscriptions,
              agent_subscriptions := agent_subscriptions,
              handler_keys := handler_keys })

end SubscriptionManager

/-! ## Message router (`core/message_router.py`) -/

inductive RoutingRuleType where
  | content_keyword | content_regex | sender_role | message_type
  | priority | metadata | custom
deriving DecidableEq, Repr

/-- The dynamically typed `condition: Union[str, Dict, Callable]` field (the
source also stores lists and str-enum values there), as a tagged union.
Str-enum values behave as their value strings where the source applies
string operations to them. -/
inductive RuleCondition where
  | str : String → RuleCondition
  | strList : List String → RuleCondition
  | prio : MessagePriority → RuleCondition
  | msgType : MessageType → RuleCondition
  | msgTypeList : List MessageType → RuleCondition
  | dict : List (String × String) → RuleCondition
  | fn : (AgentMessage → Except String Bool) → RuleCondition

structure RoutingRule where
  rule_id : String
  rule_type : RoutingRuleType
  condition : RuleCondition
  target_topics : List String
  priority : Int
  active : Bool

namespace MessageRouter

/-- Python `rank = priority_order.get(x, 0)` where `x` is the condition of a
priority rule: a `MessagePriority` key (or its value string, which hashes
equal under str-enum semantics) is found; any other hashable value defaults
to 0; unhashable values (list, dict) raise `TypeError`. -/
def priorityRankOfCondition : RuleCondition → Except String Nat
  | .prio p => .ok (priority_order p)
  | .str s =>
    .ok (if s == "low" then 0 else if s == "normal" then 1
         else if s == "high" then 2 else if s == "urgent" then 3 else 0)
  | .msgType _ => .ok 0
  | .fn _ => .ok 0
  | .strList _ => .error "TypeError: unhashable type: list"
  | .msgTypeList _ => .error "TypeError: unhashable type: list"
  | .dict _ => .error "TypeError: unhashable type: dict"

/-- Python `keywords = condition if isinstance(condition, list) else
[condition]` followed by `keyword.lower()` on each element: works on strings
and str-enum values, raises `AttributeError` otherwise. -/
def conditionAsStrList : RuleCondition → Except String (List String)
  | .str s => .ok [s]
  | .strList l => .ok l
  | .prio p => .ok [p.val]
  | .msgType t => .ok [t.val]
  | .msgTypeList l => .ok (l.map MessageType.val)
  | .dict _ => .error "AttributeError: dict has no attribute lower"
  | .fn _ => .error "AttributeError: function has no attribute lower"

/-- Python membership list for role/type rules (`condition if
isinstance(condition, list) else [condition]`); `in` only compares with `==`
and never raises, non-string singletons simply never equal a string. -/
def conditionMembers : RuleCondition → List String
  | .str s => [s]
  | .strList l => l
  | .prio p => [p.val]
  | .msgType t => [t.val]
  | .msgTypeList l => l.map MessageType.val
  | .dict _ => []
  | .fn _ => []

/-- Body of the `try` block of `_evaluate_rule`, per rule type; an `error`
value is a raised Python exception. -/
def evaluateRuleBody (regexSearch : String → String → Bool)
    (message : AgentMessage) (rule : RoutingRule) : Except String Bool :=
  match rule.rule_type with
  | .content_keyword =>
    match conditionAsStrList rule.condition with
    | .ok keywords => .ok (keywordAnyMatch keywords message.content)
    | .error e => .error e
  | .content_regex =>
    match rule.condition with
    | .str pat => .ok (regexSearch pat message.content)
    | .prio p => .ok (regexSearch p.val message.content)
    | .msgType t => .ok (regexSearch t.val message.content)
    | _ => .error "TypeError: expected string or bytes-like object"
  | .sender_role => .ok ((conditionMembers rule.condition).contains message.sender_role)
  | .message_type => .ok ((conditionMembers rule.condition).contains message.message_type.val)
  | .priority =>
    match priorityRankOfCondition rule.condition with
    | .ok minRank => .ok (decide (priority_order message.priority ≥ minRank))
    | .error e => .error e
  | .metadata =>
    match rule.condition with
    | .dict d => .ok (metadataAllMatch d message.metadata)
    | _ => .ok false
  | .custom =>
    match rule.condition with
    | .fn f => f message
    | _ => .ok false

/-- Source `_evaluate_rule`: the whole body is wrapped in `try/except`, a
raised exception is logged and treated as no match. -/
def evaluate_rule (regexSearch : String → String → Bool)
    (message : AgentMessage) (rule : RoutingRule) : Bool :=
  match evaluateRuleBody regexSearch message rule with
  | .ok b => b
  | .error _ => false

/-- Python `set.update` followed by the final `list(target_topics)`: the set
is modelled as a duplicate-free list in insertion order. -/
def setInsertAll (acc : List String) (ts : List String) : List String :=
  ts.foldl (fun a t => if a.contains t then a else a ++ [t]) acc

/-- Accumulation loop of `route_message` over the rule list. -/
def routeTargets (regexSearch : String → String → Bool) (message : AgentMessage) :
    List RoutingRule → List String → List String
  | [], acc => acc
  | rule :: rest, acc =>
    if !rule.active then routeTargets regexSearch message rest acc
    else if evaluate_rule regexSearch message rule then
      routeTargets regexSearch message rest (setInsertAll acc rule.target_topics)
    else routeTargets regexSearch message rest acc

/-- Source `route_message` restricted to its return value (the route-history
bookkeeping only records what is returned and is capped separately): the
union of the target topics of all matching active rules.  The own topic of
the message is never removed. -/
def route_message (regexSearch : String → String → Bool)
    (rules : List RoutingRule) (message : AgentMessage) : List String :=
  routeTargets regexSearch message rules []

end MessageRouter

/-! ## Conversation manager (`core/conversation_manager.py`) -/

structure ConversationThread where
  thread_id : Nat
  topic : String
  title : Option String
  created_at : Int
  last_activity : Int
  participants : List String
  message_count : Nat
  is_active : Bool

structure ConversationContext where
  thread_id : Nat
  topic : String
  recent_messages : List AgentMessage
  participants : List String
  thread_title : Option String
  last_activity : Int

namespace ConversationManager

/-- Manager state; thread ids are `Nat` stand-ins for UUID4 values and fresh
ids are passed in explicitly. -/
structure State where
  max_context_messages : Nat
  thread_timeout : Int
  threads : List (Nat × ConversationThread)
  topic_threads : List (String × List Nat)
  agent_threads : List (String × List Nat)
  message_threads : List (Nat × Nat)
  thread_messages : List (Nat × List AgentMessage)
  conversation_contexts : List (Nat × ConversationContext)

/-- Replace the binding of a key in an association list, appending when
absent. -/
def setAssoc {α β : Type} [BEq α] (st : List (α × β)) (key : α) (v : β) :
    List (α × β) :=
  match st with
  | [] => [(key, v)]
  | (k, w) :: rest =>
    if k == key then (k, v) :: rest else (k, w) :: setAssoc rest key v

/-- Python `set.add` on a set modelled as a duplicate-free list. -/
def setAdd (l : List String) (x : String) : List String :=
  if l.contains x then l else l ++ [x]

def setAddNat (l : List Nat) (x : Nat) : List Nat :=
  if l.contains x then l else l ++ [x]

/-- Source `_generate_thread_title`: the stripped content, truncated to 47
characters plus an ellipsis when longer than 50.  Python `str.strip()` is
`String.trim` for the ASCII contents in play. -/
def generate_thread_title (message : AgentMessage) : String :=
  let content := message.content.trim
  if content.length ≤ 50 then content else content.take 47 ++ "..."

/-- Source `create_thread` (with `now` for the two `utcnow` defaults and
`freshId` for `uuid4`). -/
def create_thread (now : Int) (freshId : Nat) (st : State) (topic : String)
    (initial_message : AgentMessage) (title : Option String) :
    ConversationThread × State :=
  let thread : ConversationThread :=
    { thread_id := freshId
      topic := topic
      title := some (title.getD (generate_thread_title initial_message))
      created_at := now
      last_activity := now
      participants := [initial_message.sender_id]
      message_count := 0
      is_active := true }
  let context : ConversationContext :=
    { thread_id := freshId
      topic := topic
      recent_messages := [initial_message]
      participants := [initial_message.sender_id]
      thread_title := thread.title
      last_activity := now }
  (thread,
   { st with
     threads := setAssoc st.threads freshId thread
     topic_threads := setAssoc st.topic_threads topic
       ((List.lookup topic st.topic_threads).getD [] ++ [freshId])
     agent_threads := setAssoc st.agent_threads initial_message.sender_id
       (setAddNat ((List.lookup initial_message.sender_id st.agent_threads).getD []) freshId)
     thread_messages := setAssoc st.thread_messages freshId [initial_message]
     message_threads := setAssoc st.message_threads initial_message.id freshId
     conversation_contexts := setAssoc st.conversation_contexts freshId context })

/-- Eligibility test of the reuse loop in `_find_or_create_thread`: the
thread exists, is active, and its last activity is within the timeout. -/
def threadEligible (now : Int) (st : State) (tid : Nat) : Bool :=
  match List.lookup tid st.threads with
  | some th => th.is_active && decide (now - th.last_activity < st.thread_timeout)
  | none => false

/-- Source `_find_or_create_thread`: the FIRST eligible thread id in the
(topic-creation-ordered) `topic_threads` list is reused; only when none is
eligible is a new thread created. -/
def find_or_create_thread (now : Int) (freshId : Nat) (st : State)
    (message : AgentMessage) : Nat × State :=
  match ((List.lookup message.topic st.topic_threads).getD []).find?
      (fun tid => threadEligible now st tid) with
  | some tid => (tid, st)
  | none =>
    let (thread, st2) := create_thread now freshId st message.topic message none
    (thread.thread_id, st2)

/-- Source `_update_conversation_context`. -/
def update_conversation_context (st : State) (tid : Nat) (message : AgentMessage) :
    State :=
  match List.lookup tid st.conversation_contexts with
  | none => st
  | some ctx =>
    let recent := ctx.recent_messages ++ [message]
    let recent := if recent.length > st.max_context_messages then
        recent.drop (recent.length - st.max_context_messages) else recent
    let ctx2 := { ctx with
      recent_messages := recent
      participants := setAdd ctx.participants message.sender_id
      last_activity := message.timestamp }
    { st with conversation_contexts := setAssoc st.conversation_contexts tid ctx2 }

/-- Source `add_message_to_thread`. -/
def add_message_to_thread (now : Int) (freshId : Nat) (st : State)
    (message : AgentMessage) (thread_id : Option Nat) : Nat × State :=
  let (tid, st1) :=
    match thread_id with
    | some t => (t, st)
    | none => find_or_create_thread now freshId st message
  let st2 := { st1 with
    thread_messages := setAssoc st1.thread_messages tid
      ((List.lookup tid st1.thread_messages).getD [] ++ [message])
    message_threads := setAssoc st1.message_threads message.id tid }
  let st3 :=
    match List.lookup tid st2.threads with
    | none => st2
    | some th =>
      let th2 := { th with
        participants := setAdd th.participants message.sender_id
        message_count := th.message_count + 1
        last_activity := message.timestamp }
      { st2 with
        threads := setAssoc st2.threads tid th2
        agent_threads := setAssoc st2.agent_threads message.sender_id
          (setAddNat ((List.lookup message.sender_id st2.agent_threads).getD []) tid) }
  (tid, update_conversation_context st3 tid message)

end ConversationManager

/-! ## Error handler (`core/error_handler.py`) -/

inductive ErrorType where
  | network_error | llm_provider_error | message_broker_error
  | validation_error | permission_error | timeout_error | unknown_error
deriving DecidableEq, Repr

inductive RetryStrategy where
  | immediate | exponential_backoff | linear_backoff | fixed_delay
deriving DecidableEq, Repr

structure RetryConfig where
  max_retries : Nat
  base_delay : ℚ
  max_delay : ℚ
  backoff_multiplier : ℚ
  strategy : RetryStrategy
  retryable_errors : List ErrorType

/-- The dataclass defaults of `RetryConfig`. -/
def defaultRetryConfig : RetryConfig :=
  { max_retries := 3
    base_delay := 1
    max_delay := 60
    backoff_multiplier := 2
    strategy := .exponential_backoff
    retryable_errors := [.network_error, .timeout_error, .message_broker_error] }

/-- A raised Python exception as seen by `_classify_error`: the name of its
type and its string rendering. -/
structure PyError where
  name : String
  message : String

structure ErrorContext where
  error_type : ErrorType
  error_message : String
  timestamp : Int
  retry_count : Nat

structure RetryAttempt where
  attempt_number : Nat
  delay : ℚ
  error : Option String
  success : Bool

namespace ErrorHandler

/-- Source `_classify_error`: substring heuristics over the lowercased
exception type name and message. -/
def classify_error (e : PyError) : ErrorType :=
  let error_name := pyLower e.name
  let error_message := pyLower e.message
  if pyContains error_name "timeout" || pyContains error_message "timeout" then
    .timeout_error
  else if pyContains error_name "network" || pyContains error_message "connection" then
    .network_error
  else if pyContains error_name "kafka" || pyContains error_message "redpanda" then
    .message_broker_error
  else if pyContains error_name "openai" || pyContains error_name "anthropic" ||
      pyContains error_message "llm" then
    .llm_provider_error
  else if pyContains error_name "validation" || pyContains error_message "invalid" then
    .validation_error
  else if pyContains error_name "permission" || pyContains error_message "unauthorized" then
    .permission_error
  else
    .unknown_error

/-- Source `_calculate_delay` with the wall-clock fractional read
`asyncio.get_event_loop().time() % 1` made explicit as `r`.  The
`immediate` and `fixed_delay` branches return early, so neither jitter nor
the cap applies to them. -/
def calculate_delay (cfg : RetryConfig) (r : ℚ) (attempt : Nat) : ℚ :=
  match cfg.strategy with
  | .immediate => 0
  | .fixed_delay => cfg.base_delay
  | .linear_backoff =>
    let delay := cfg.base_delay * ((attempt : ℚ) + 1)
    let jitter := delay * (1/10) * (1/2 - r)
    min (delay + jitter) cfg.max_delay
  | .exponential_backoff =>
    let delay := cfg.base_delay * cfg.backoff_multiplier ^ attempt
    let jitter := delay * (1/10) * (1/2 - r)
    min (delay + jitter) cfg.max_delay

/-- Source `is_error_retryable` (the awaited value of the async method). -/
def is_error_retryable (cfg : RetryConfig) (e : PyError) : Bool :=
  cfg.retryable_errors.contains (classify_error e)

/-- Outcome of `handle_error`/`_retry_operation`.  The source appends one
shared mutable `ErrorContext` object to its history on every
`_record_error` call, so the history is modelled as the final state of that
context plus the number of record events; `retry_history` entries are
likewise recorded with their final field values. -/
structure HandleOutcome (α : Type) where
  result : Option α
  retry_history : List RetryAttempt
  error_context : ErrorContext
  record_count : Nat

/-- Loop of `_retry_operation` (`for attempt in range(max_retries)`),
translated with `remaining = max_retries - attempt` as the structural
fuel.  `op attempt` is the outcome of the `attempt`-th call of
`retry_func` (0-based); `.error` is a raised exception rendered to a
string.  The attempt is last exactly when `remaining = 1`. -/
def retryGo {α : Type} (cfg : RetryConfig) (r : ℚ) (op : Nat → Except String α) :
    Nat → Nat → List RetryAttempt → ErrorContext → Nat → HandleOutcome α
  | _, 0, rh, ectx, recs => ⟨none, rh, ectx, recs⟩
  | attempt, remaining + 1, rh, ectx, recs =>
    let delay := calculate_delay cfg r attempt
    match op attempt with
    | .ok v =>
      ⟨some v,
       rh ++ [{ attempt_number := attempt + 1, delay := delay, error := none,
                success := true }],
       ectx, recs⟩
    | .error e =>
      let rh2 := rh ++ [{ attempt_number := attempt + 1, delay := delay,
                          error := some e, success := false }]
      let ectx2 := { ectx with retry_count := attempt + 1 }
      if remaining = 0 then
        ⟨none, rh2, ectx2, recs⟩
      else
        let ectx3 := { ectx2 with error_message := e }
        retryGo cfg r op (attempt + 1) remaining rh2 ectx3 (recs + 1)

/-- Source `_retry_operation`. -/
def retry_operation {α : Type} (cfg : RetryConfig) (r : ℚ)
    (op : Nat → Except String α) (ectx : ErrorContext) (recs : Nat) :
    HandleOutcome α :=
  retryGo cfg r op 0 cfg.max_retries [] ectx recs

/-- Source `handle_error`: classify and record the triggering error, then
retry when the classified type is retryable and a retry function was
supplied. -/
def handle_error {α : Type} (cfg : RetryConfig) (r : ℚ) (now : Int)
    (e : PyError) (retry_func : Option (Nat → Except String α)) :
    HandleOutcome α :=
  let error_type := classify_error e
  let ectx : ErrorContext :=
    { error_type := error_type, error_message := e.message,
      timestamp := now, retry_count := 0 }
  if cfg.retryable_errors.contains error_type then
    match retry_func with
    | some op => retry_operation cfg r op ectx 1
    | none => ⟨none, [], ectx, 1⟩
  else
    ⟨none, [], ectx, 1⟩

/-- Truthiness of the value `handle_message_error` actually tests: the
source calls its own async method `is_error_retryable` WITHOUT `await`, so
the tested value is the coroutine object itself, which is always truthy in
Python, whatever the error is. -/
def unAwaitedCoroutineTruthy : Bool := true

/-- Source `MessageErrorHandler.handle_message_error` restricted to its
boolean verdict: `message.should_retry() and self.is_error_retryable(error)`
with the second conjunct an un-awaited coroutine, hence always truthy. -/
def handle_message_error (_cfg : RetryConfig) (now : Int)
    (message : AgentMessage) (_e : PyError) : Bool :=
  message.should_retry now && unAwaitedCoroutineTruthy

/-- How the source INTENDED the check (and how the spec describes it):
both the message-level and the policy-level checks must agree. -/
def handle_message_error_intended (cfg : RetryConfig) (now : Int)
    (message : AgentMessage) (e : PyError) : Bool :=
  message.should_retry now && is_error_retryable cfg e

end ErrorHandler

/-! ## Concrete fixtures for scenario claims -/

/-- Abstract regex semantics used where a scenario has no regex clause; the
choice is irrelevant there. -/
def anyRegex : String → String → Bool := fun _ _ => false

def msgOps : AgentMessage :=
  { id := 1, timestamp := 0, sender_id := "agent-1", sender_name := "Agent One",
    sender_role := "worker", message_type := .text, priority := .normal,
    content := "urgent issue", topic := "ops", metadata := [], ttl := none,
    retry_count := 0, max_retries := 3 }

/-- A keyword rule that lists the topic of `msgOps` among its targets. -/
def ruleOps : RoutingRule :=
  { rule_id := "r1", rule_type := .content_keyword, condition := .str "urgent",
    target_topics := ["ops", "alerts"], priority := 0, active := true }

/-! ## Claim C1 -/

theorem mem_setInsertAll (acc ts : List String) (t : String) :
    t ∈ MessageRouter.setInsertAll acc ts ↔ t ∈ acc ∨ t ∈ ts := by
  induction ts generalizing acc with
  | nil => simp [MessageRouter.setInsertAll]
  | cons x ts ih =>
    have hstep : MessageRouter.setInsertAll acc (x :: ts) =
        MessageRouter.setInsertAll (if acc.contains x then acc else acc ++ [x]) ts := rfl
    rw [hstep, ih]
    by_cases hx : x ∈ acc
    · rw [if_pos (List.elem_iff.mpr hx)]
      simp only [List.mem_cons]
      constructor
      · rintro (h | h)
        · exact Or.inl h
        · exact Or.inr (Or.inr h)
      · rintro (h | h | h)
        · exact Or.inl h
        · exact Or.inl (h ▸ hx)
        · exact Or.inr h
    · rw [if_neg (fun hc => hx (List.elem_iff.mp hc))]
      simp only [List.mem_append, List.mem_singleton, List.mem_cons]
      tauto

theorem routeTargets_mem (regexSearch : String → String → Bool)
    (message : AgentMessage) (rules : List RoutingRule) (acc : List String)
    (t : String) :
    t ∈ MessageRouter.routeTargets regexSearch message rules acc ↔
      t ∈ acc ∨ ∃ rule ∈ rules, rule.active = true ∧
        MessageRouter.evaluate_rule regexSearch message rule = true ∧
        t ∈ rule.target_topics := by
  induction rules generalizing acc with
  | nil => simp [MessageRouter.routeTargets]
  | cons rule rest ih =>
    cases hact : rule.active with
    | false =>
      have hstep : MessageRouter.routeTargets regexSearch message (rule :: rest) acc =
          MessageRouter.routeTargets regexSearch message rest acc := by
        simp [MessageRouter.routeTargets, hact]
      rw [hstep, ih]
      constructor
      · rintro (h | h)
        · exact Or.inl h
        · exact Or.inr (by rcases h with ⟨r, hr, h1, h2, h3⟩; exact ⟨r, List.mem_cons_of_mem _ hr, h1, h2, h3⟩)
      · rintro (h | ⟨r, hr, h1, h2, h3⟩)
        · exact Or.inl h
        · rcases List.mem_cons.mp hr with rfl | hr2
          · exact absurd h1 (by simp [hact])
          · exact Or.inr ⟨r, hr2, h1, h2, h3⟩
    | true =>
      cases heval : MessageRouter.evaluate_rule regexSearch message rule with
      | false =>
        have hstep : MessageRouter.routeTargets regexSearch message (rule :: rest) acc =
            MessageRouter.routeTargets regexSearch message rest acc := by
          simp [MessageRouter.routeTargets, hact, heval]
        rw [hstep, ih]
        constructor
        · rintro (h | ⟨r, hr, h1, h2, h3⟩)
          · exact Or.inl h
          · exact Or.inr ⟨r, List.mem_cons_of_mem _ hr, h1, h2, h3⟩
        · rintro (h | ⟨r, hr, h1, h2, h3⟩)
          · exact Or.inl h
          · rcases List.mem_cons.mp hr with rfl | hr2
            · exact absurd h2 (by simp [heval])
            · exact Or.inr ⟨r, hr2, h1, h2, h3⟩
      | true =>
        have hstep : MessageRouter.routeTargets regexSearch message (rule :: rest) acc =
            MessageRouter.routeTargets regexSearch message rest
              (MessageRouter.setInsertAll acc rule.target_topics) := by
          simp [MessageRouter.routeTargets, hact, heval]
        rw [hstep, ih, mem_setInsertAll]
        constructor
        · rintro ((h | h) | ⟨r, hr, h1, h2, h3⟩)
          · exact Or.inl h
          · exact Or.inr ⟨rule, List.mem_cons_self _ _, hact, heval, h⟩
          · exact Or.inr ⟨r, List.mem_cons_of_mem _ hr, h1, h2, h3⟩
        · rintro (h | ⟨r, hr, h1, h2, h3⟩)
          · exact Or.inl (Or.inl h)
          · rcases List.mem_cons.mp hr with rfl | hr2
            · exact Or.inl (Or.inr h3)
            · exact Or.inr ⟨r, hr2, h1, h2, h3⟩

/-- Claim C1, counterexample: the routing engine does NOT exclude the topic
of the message from its result.  A matching keyword rule targeting `ops`
makes `route_message` of a message on topic `ops` return a set containing
`ops` itself. -/
theorem C1_counterexample :
    msgOps.topic = "ops" ∧
    MessageRouter.route_message anyRegex [ruleOps] msgOps = ["ops", "alerts"] ∧
    msgOps.topic ∈ MessageRouter.route_message anyRegex [ruleOps] msgOps := by
  have h : MessageRouter.route_message anyRegex [ruleOps] msgOps = ["ops", "alerts"] := by
    decide
  refine ⟨rfl, h, ?_⟩
  rw [show msgOps.topic = "ops" from rfl, h]
  simp

/-- Claim C1, amended: for every message and rule set, `route_message`
returns exactly the union of the target topics of the matching active rules,
WITHOUT removing the topic of the message itself (callers that fan out are
the ones that skip the original topic). -/
theorem C1_route_is_union_of_matched_targets :
    ∀ (regexSearch : String → String → Bool) (rules : List RoutingRule)
      (message : AgentMessage) (t : String),
      t ∈ MessageRouter.route_message regexSearch rules message ↔
        ∃ rule ∈ rules, rule.active = true ∧
          MessageRouter.evaluate_rule regexSearch message rule = true ∧
          t ∈ rule.target_topics := by
  intro regexSearch rules message t
  rw [MessageRouter.route_message, routeTargets_mem]
  simp

/-! ## Claim C2 -/

/-- A raised validation error as the tests build one
(`ValueError("Invalid input")` classifies as validation via the message). -/
def errValidation : PyError :=
  { name := "ValidationError", message := "invalid input" }

/-- A message with retries remaining and no TTL. -/
def msgRetryable : AgentMessage :=
  { id := 2, timestamp := 0, sender_id := "agent-1", sender_name := "Agent One",
    sender_role := "worker", message_type := .task, priority := .normal,
    content := "do the thing", topic := "ops", metadata := [], ttl := none,
    retry_count := 0, max_retries := 3 }

/-- Claim C2, code bug: `handle_message_error` calls the async method
`is_error_retryable` without `await`, so it tests the coroutine object
(always truthy) instead of the awaited boolean.  On a message with retries
remaining and a VALIDATION error — which the policy check classifies as
non-retryable — the source returns `True` (permits the retry), while the
two-checks-must-agree behaviour the spec describes (and the awaited call
would give) returns `False`. -/
theorem C2_unawaited_retryable_check :
    ErrorHandler.classify_error errValidation = ErrorType.validation_error ∧
    ErrorHandler.is_error_retryable defaultRetryConfig errValidation = false ∧
    msgRetryable.should_retry 0 = true ∧
    ErrorHandler.handle_message_error defaultRetryConfig 0 msgRetryable errValidation = true ∧
    ErrorHandler.handle_message_error_intended defaultRetryConfig 0 msgRetryable errValidation
      = false := by
  refine ⟨by decide, by decide, by decide, by decide, by decide⟩

/-! ## Claim C3 -/

/-- A network error: classified retryable under the default policy. -/
def errNetwork : PyError :=
  { name := "NetworkError", message := "connection refused to broker" }

/-- Claim C3, counterexample: with the default policy (`max_retries = 3`,
exponential strategy) and an operation failing on every attempt, the
coordinator does perform exactly 3 retries, but its result is `None` — the
last underlying failure is NOT surfaced as the result (it is only recorded
in the retry history). -/
theorem C3_counterexample :
    (ErrorHandler.handle_error defaultRetryConfig 0 0 errNetwork
        (some (fun i => Except.error ("boom " ++ toString i) : Nat → Except String Unit))).result
      = none ∧
    (ErrorHandler.handle_error defaultRetryConfig 0 0 errNetwork
        (some (fun i => Except.error ("boom " ++ toString i) : Nat → Except String Unit))).retry_history.map
        (fun a => a.attempt_number) = [1, 2, 3] ∧
    ((ErrorHandler.handle_error defaultRetryConfig 0 0 errNetwork
        (some (fun i => Except.error ("boom " ++ toString i) : Nat → Except String Unit))).retry_history.getLast?).map
        (fun a => a.error) = some (some "boom 2") := by
  refine ⟨rfl, rfl, rfl⟩

/-- Claim C3, amended: with `maxRetries = 3` and an always-failing
operation, `handle_error` reports failure by returning `None` after
exhausting exactly 3 retries (4 total attempts counting the initial failure
that triggered handling, which is the first recorded error).  The last
underlying failure and the accumulated retry count are recorded — the last
retry-history entry carries the final error, the error context carries
`retry_count = 3` — but the returned result is null, not the failure. -/
theorem C3_exhausted_retries_return_none :
    ∀ (errs : Nat → String) (r : ℚ) (now : Int),
      (ErrorHandler.handle_error defaultRetryConfig r now errNetwork
          (some (fun i => Except.error (errs i) : Nat → Except String Unit))).result = none ∧
      (ErrorHandler.handle_error defaultRetryConfig r now errNetwork
          (some (fun i => Except.error (errs i) : Nat → Except String Unit))).retry_history.map
          (fun a => a.attempt_number) = [1, 2, 3] ∧
      ((ErrorHandler.handle_error defaultRetryConfig r now errNetwork
          (some (fun i => Except.error (errs i) : Nat → Except String Unit))).retry_history.getLast?).map
          (fun a => a.error) = some (some (errs 2)) ∧
      (ErrorHandler.handle_error defaultRetryConfig r now errNetwork
          (some (fun i => Except.error (errs i) : Nat → Except String Unit))).error_context.retry_count
        = 3 ∧
      (ErrorHandler.handle_error defaultRetryConfig r now errNetwork
          (some (fun i => Except.error (errs i) : Nat → Except String Unit))).record_count = 3 := by
  intro errs r now
  refine ⟨rfl, rfl, rfl, rfl, rfl⟩

/-! ## Claim C4 -/

/-- First-match characterization of `List.find?` used for the thread-reuse
loop. -/
theorem find?_append_first {α : Type} (p : α → Bool) (l1 l2 : List α) (a : α)
    (h1 : ∀ x ∈ l1, p x = false) (h2 : p a = true) :
    (l1 ++ a :: l2).find? p = some a := by
  induction l1 with
  | nil => simpa using List.find?_cons_of_pos l2 h2
  | cons y ys ih =>
    have hy : p y = false := h1 y (List.mem_cons_self y ys)
    have : ((y :: ys) ++ a :: l2).find? p = (ys ++ a :: l2).find? p := by
      simpa using List.find?_cons_of_neg (ys ++ a :: l2) (by simp [hy])
    rw [this, ih (fun x hx => h1 x (List.mem_cons_of_mem y hx))]

theorem lookup_setAssoc_self {β : Type} (st : List (Nat × β)) (k : Nat) (v : β) :
    List.lookup k (ConversationManager.setAssoc st k v) = some v := by
  induction st with
  | nil => simp [ConversationManager.setAssoc, List.lookup]
  | cons kv rest ih =>
    rcases kv with ⟨k1, w⟩
    by_cases hk : k1 = k
    · subst hk
      simp [ConversationManager.setAssoc, List.lookup]
    · have hb1 : (k1 == k) = false := by
        simp only [beq_eq_false_iff_ne]
        exact hk
      have hb2 : (k == k1) = false := by
        simp only [beq_eq_false_iff_ne]
        exact fun h => hk h.symm
      simp [ConversationManager.setAssoc, hb1, hb2, List.lookup, ih]

/-- Context bookkeeping never touches the thread table. -/
theorem update_context_preserves_threads (st : ConversationManager.State)
    (tid : Nat) (msg : AgentMessage) :
    (ConversationManager.update_conversation_context st tid msg).threads = st.threads := by
  rw [ConversationManager.update_conversation_context]
  cases List.lookup tid st.conversation_contexts <;> rfl

def thOpsOld : ConversationThread :=
  { thread_id := 1, topic := "ops", title := none, created_at := 0,
    last_activity := 100, participants := ["a"], message_count := 1,
    is_active := true }

def thOpsNew : ConversationThread :=
  { thread_id := 2, topic := "ops", title := none, created_at := 150,
    last_activity := 200, participants := ["a"], message_count := 1,
    is_active := true }

/-- Two active threads on topic `ops`, both within the 24h timeout; thread 1
was created first, thread 2 has the more recent activity. -/
def convStateTwoThreads : ConversationManager.State :=
  { max_context_messages := 10, thread_timeout := 86400,
    threads := [(1, thOpsOld), (2, thOpsNew)],
    topic_threads := [("ops", [1, 2])],
    agent_threads := [], message_threads := [],
    thread_messages := [(1, []), (2, [])],
    conversation_contexts := [] }

def msgThread : AgentMessage :=
  { id := 77, timestamp := 250, sender_id := "b", sender_name := "B",
    sender_role := "worker", message_type := .text, priority := .normal,
    content := "hello", topic := "ops", metadata := [], ttl := none,
    retry_count := 0, max_retries := 3 }

/-- Claim C4, counterexample: with two eligible threads on the topic,
`add_message_to_thread` (no explicit thread id) reuses thread 1 — the first
thread in the creation-ordered topic list — even though thread 2 is eligible
and has the strictly newer last-activity timestamp. -/
theorem C4_counterexample :
    (ConversationManager.add_message_to_thread 250 99 convStateTwoThreads
        msgThread none).1 = 1 ∧
    ConversationManager.threadEligible 250 convStateTwoThreads 2 = true ∧
    thOpsNew.last_activity = 200 ∧ thOpsOld.last_activity = 100 := by
  refine ⟨rfl, by decide, rfl, rfl⟩

/-- Claim C4, amended: when no explicit thread id is given,
`add_message_to_thread` reuses the FIRST eligible thread (active, within the
timeout) in the creation-ordered thread list of the topic — not the most
recently active one — and only when no thread is eligible does it create a
new thread. -/
theorem C4_first_eligible_thread_reused :
    ∀ (now : Int) (freshId : Nat) (st : ConversationManager.State)
      (msg : AgentMessage),
      (∀ (tid : Nat) (l1 l2 : List Nat),
        (List.lookup msg.topic st.topic_threads).getD [] = l1 ++ tid :: l2 →
        (∀ x ∈ l1, ConversationManager.threadEligible now st x = false) →
        ConversationManager.threadEligible now st tid = true →
        (ConversationManager.add_message_to_thread now freshId st msg none).1 = tid) ∧
      ((∀ x ∈ (List.lookup msg.topic st.topic_threads).getD [],
          ConversationManager.threadEligible now st x = false) →
        (ConversationManager.add_message_to_thread now freshId st msg none).1 = freshId ∧
        (List.lookup freshId
          (ConversationManager.add_message_to_thread now freshId st msg none).2.threads).isSome
          = true) := by
  intro now freshId st msg
  constructor
  · intro tid l1 l2 hsplit h1 h2
    have hfind : ((List.lookup msg.topic st.topic_threads).getD []).find?
        (fun t => ConversationManager.threadEligible now st t) = some tid := by
      rw [hsplit]
      exact find?_append_first _ l1 l2 tid h1 h2
    simp [ConversationManager.add_message_to_thread,
      ConversationManager.find_or_create_thread, hfind]
  · intro hall
    have hfind : ((List.lookup msg.topic st.topic_threads).getD []).find?
        (fun t => ConversationManager.threadEligible now st t) = none := by
      refine List.find?_eq_none.mpr ?_
      intro x hx
      simp [hall x hx]
    refine ⟨?_, ?_⟩
    · simp [ConversationManager.add_message_to_thread,
        ConversationManager.find_or_create_thread, ConversationManager.create_thread, hfind]
    · rw [ConversationManager.add_message_to_thread]
      simp only [ConversationManager.find_or_create_thread, hfind]
      rw [update_context_preserves_threads]
      simp only [ConversationManager.create_thread]
      rw [lookup_setAssoc_self]
      simp [lookup_setAssoc_self]

/-- Claim C4 witness: the amended theorem applied to the concrete two-thread
state, where thread 1 heads the topic list and is eligible. -/
theorem C4_first_eligible_thread_reused_witness :
    (ConversationManager.add_message_to_thread 250 99 convStateTwoThreads
        msgThread none).1 = 1 :=
  (C4_first_eligible_thread_reused 250 99 convStateTwoThreads msgThread).1 1 [] [2]
    rfl (fun x hx => absurd hx (List.not_mem_nil x)) (by decide)

/-! ## Claim C5 -/

/-- A fixed-delay configuration whose base delay exceeds the maximum. -/
def cfgFixedOverCap : RetryConfig :=
  { max_retries := 3, base_delay := 100, max_delay := 60,
    backoff_multiplier := 2, strategy := .fixed_delay,
    retryable_errors := [.network_error, .timeout_error, .message_broker_error] }

/-- Claim C5, counterexample: the `fixed_delay` branch of `_calculate_delay`
returns early, before the cap, so with base delay 100 and maximum delay 60
the returned delay is 100, exceeding the configured maximum. -/
theorem C5_counterexample :
    ErrorHandler.calculate_delay cfgFixedOverCap 0 0 = 100 ∧
    cfgFixedOverCap.max_delay = 60 ∧
    ¬ ErrorHandler.calculate_delay cfgFixedOverCap 0 0 ≤ cfgFixedOverCap.max_delay := by
  refine ⟨rfl, rfl, ?_⟩
  norm_num [ErrorHandler.calculate_delay, cfgFixedOverCap]

/-- Claim C5, amended: the delay follows the per-strategy formula, but
jitter and the maximum-delay cap apply only to the linear and exponential
strategies (for those, the jitter is within 10% — indeed within 5% — of the
formula value and the result never exceeds the maximum delay); the
`immediate` strategy returns 0 and the `fixed_delay` strategy returns the
base delay with no jitter and NO cap. -/
theorem C5_delay_per_strategy :
    ∀ (cfg : RetryConfig) (r : ℚ) (attempt : Nat),
      0 ≤ r → r < 1 → 0 ≤ cfg.base_delay → 0 ≤ cfg.backoff_multiplier →
      (cfg.strategy = RetryStrategy.immediate →
        ErrorHandler.calculate_delay cfg r attempt = 0) ∧
      (cfg.strategy = RetryStrategy.fixed_delay →
        ErrorHandler.calculate_delay cfg r attempt = cfg.base_delay) ∧
      (cfg.strategy = RetryStrategy.linear_backoff →
        ErrorHandler.calculate_delay cfg r attempt ≤ cfg.max_delay ∧
        ∃ j : ℚ, |j| ≤ (1/10) * (cfg.base_delay * ((attempt : ℚ) + 1)) ∧
          ErrorHandler.calculate_delay cfg r attempt =
            min (cfg.base_delay * ((attempt : ℚ) + 1) + j) cfg.max_delay) ∧
      (cfg.strategy = RetryStrategy.exponential_backoff →
        ErrorHandler.calculate_delay cfg r attempt ≤ cfg.max_delay ∧
        ∃ j : ℚ, |j| ≤ (1/10) * (cfg.base_delay * cfg.backoff_multiplier ^ attempt) ∧
          ErrorHandler.calculate_delay cfg r attempt =
            min (cfg.base_delay * cfg.backoff_multiplier ^ attempt + j) cfg.max_delay) := by
  intro cfg r attempt hr0 hr1 hbase hmult
  have key : ∀ d : ℚ, 0 ≤ d → |d * (1/10) * (1/2 - r)| ≤ (1/10) * d := by
    intro d hd
    have habs : |1/2 - r| ≤ 1/2 := abs_le.mpr ⟨by linarith, by linarith⟩
    calc |d * (1/10) * (1/2 - r)| = (d * (1/10)) * |1/2 - r| := by
          rw [abs_mul, abs_of_nonneg (by positivity)]
      _ ≤ (d * (1/10)) * (1/2) := by
          exact mul_le_mul_of_nonneg_left habs (by positivity)
      _ ≤ (1/10) * d := by linarith
  refine ⟨?_, ?_, ?_, ?_⟩
  · intro h
    simp [ErrorHandler.calculate_delay, h]
  · intro h
    simp [ErrorHandler.calculate_delay, h]
  · intro h
    have hd : (0:ℚ) ≤ cfg.base_delay * ((attempt : ℚ) + 1) :=
      mul_nonneg hbase (by positivity)
    refine ⟨?_, cfg.base_delay * ((attempt : ℚ) + 1) * (1/10) * (1/2 - r),
      key _ hd, ?_⟩
    · simp [ErrorHandler.calculate_delay, h]
    · simp [ErrorHandler.calculate_delay, h]
  · intro h
    have hd : (0:ℚ) ≤ cfg.base_delay * cfg.backoff_multiplier ^ attempt :=
      mul_nonneg hbase (pow_nonneg hmult _)
    refine ⟨?_, cfg.base_delay * cfg.backoff_multiplier ^ attempt * (1/10) * (1/2 - r),
      key _ hd, ?_⟩
    · simp [ErrorHandler.calculate_delay, h]
    · simp [ErrorHandler.calculate_delay, h]

/-- Claim C5 witness: the amended theorem applied to the default
configuration (exponential strategy) at attempt 0 with clock fraction 0. -/
theorem C5_delay_per_strategy_witness :
    ErrorHandler.calculate_delay defaultRetryConfig 0 0 ≤ defaultRetryConfig.max_delay :=
  ((C5_delay_per_strategy defaultRetryConfig 0 0 (by norm_num) (by norm_num)
    (by norm_num [defaultRetryConfig]) (by norm_num [defaultRetryConfig])).2.2.2 rfl).1

/-! ## Claim C6 -/

/-- The delivery predicate of the subscription routing loop. -/
def deliversTo (regexSearch : String → String → Bool) (message : AgentMessage)
    (s : TopicSubscription) : Bool :=
  s.active && !(s.agent_id == message.sender_id) &&
    SubscriptionManager.message_matches_filter regexSearch message s.filter_criteria

/-- The per-delivery subscription update of the routing loop. -/
def deliveryBump (message : AgentMessage) (s : TopicSubscription) : TopicSubscription :=
  { s with message_count := s.message_count + 1,
           last_message_at := some message.timestamp }

theorem routeLoop_spec (regexSearch : String → String → Bool)
    (message : AgentMessage) (subs : List TopicSubscription) :
    (SubscriptionManager.routeLoop regexSearch message subs).1 =
      (subs.filter (deliversTo regexSearch message)).map (deliveryBump message) ∧
    (SubscriptionManager.routeLoop regexSearch message subs).2 =
      subs.map (fun s =>
        if deliversTo regexSearch message s then deliveryBump message s else s) := by
  induction subs with
  | nil => exact ⟨rfl, rfl⟩
  | cons s rest ih =>
    obtain ⟨ih1, ih2⟩ := ih
    cases hact : s.active with
    | false =>
      constructor
      · simp [SubscriptionManager.routeLoop, hact, deliversTo, ih1]
      · simp [SubscriptionManager.routeLoop, hact, deliversTo, ih2]
    | true =>
      cases hsender : s.agent_id == message.sender_id with
      | true =>
        have heq : s.agent_id = message.sender_id := eq_of_beq hsender
        constructor
        · simp [SubscriptionManager.routeLoop, hact, hsender, deliversTo, ih1]
        · simp [SubscriptionManager.routeLoop, hact, hsender, deliversTo, ih2, heq]
      | false =>
        have hne : s.agent_id ≠ message.sender_id := by
          simpa [beq_eq_false_iff_ne] using hsender
        cases hmatch : SubscriptionManager.message_matches_filter regexSearch message
            s.filter_criteria with
        | true =>
          constructor
          · simp [SubscriptionManager.routeLoop, hact, hsender, hmatch, deliversTo,
              deliveryBump, ih1]
          · simp [SubscriptionManager.routeLoop, hact, hsender, hmatch, deliversTo,
              deliveryBump, ih2, hne]
        | false =>
          constructor
          · simp [SubscriptionManager.routeLoop, hact, hsender, hmatch, deliversTo, ih1]
          · simp [SubscriptionManager.routeLoop, hact, hsender, hmatch, deliversTo, ih2]

/-- Subscription filter of the scenario: keywords `urgent`, `important`. -/
def fcKeywords : SubscriptionFilter :=
  { SubscriptionFilter.empty with content_keywords := ["urgent", "important"] }

def msgUrgentOps : AgentMessage :=
  { id := 3, timestamp := 5, sender_id := "sender-1", sender_name := "S",
    sender_role := "worker", message_type := .text, priority := .normal,
    content := "This is URGENT", topic := "ops", metadata := [], ttl := none,
    retry_count := 0, max_retries := 3 }

def msgRoutineOps : AgentMessage :=
  { id := 4, timestamp := 6, sender_id := "sender-1", sender_name := "S",
    sender_role := "worker", message_type := .text, priority := .normal,
    content := "routine update", topic := "ops", metadata := [], ttl := none,
    retry_count := 0, max_retries := 3 }

/-- Claim C6: subscription routing returns exactly the active subscriptions
on the topic of the message whose agent differs from the sender and whose
filter matches, each with message counter incremented and last-delivery
timestamp updated (both in the returned list and in the stored state); and
the keyword filter `urgent`/`important` matches `This is URGENT`
case-insensitively but not `routine update`. -/
theorem C6_route_message_filters_and_bumps :
    ∀ (regexSearch : String → String → Bool) (st : SubscriptionManager.State)
      (message : AgentMessage),
      (SubscriptionManager.route_message regexSearch st message).1 =
        (((List.lookup message.topic st.subscriptions).getD []).filter
            (deliversTo regexSearch message)).map (deliveryBump message) ∧
      SubscriptionManager.message_matches_filter regexSearch msgUrgentOps
        (some fcKeywords) = true ∧
      SubscriptionManager.message_matches_filter regexSearch msgRoutineOps
        (some fcKeywords) = false := by
  intro regexSearch st message
  refine ⟨?_, ?_, ?_⟩
  · rw [SubscriptionManager.route_message]
    cases hlook : List.lookup message.topic st.subscriptions with
    | none => simp [hlook]
    | some subs => simp [hlook, (routeLoop_spec regexSearch message subs).1]
  · simp [SubscriptionManager.message_matches_filter, fcKeywords,
      SubscriptionFilter.empty]
    decide
  · simp [SubscriptionManager.message_matches_filter, fcKeywords,
      SubscriptionFilter.empty]
    decide

/-! ## Claim C7 -/

/-- The permission level the check consults: the level of the first record
of the agent on the topic, when any exists. -/
def firstPermLevel (st : TopicValidator.PermState) (topic agent : String) :
    Option PermissionLevel :=
  match List.lookup topic (st : List (String × List TopicPermission)) with
  | none => none
  | some perms =>
    (perms.find? (fun p => p.agent_id == agent)).map (fun p => p.permission_level)

/-- Claim C7: permission checks are monotonic in the required level under
read < write < admin < owner; the absence of any record for the
(topic, agent) pair denies every required level; and concretely an agent
granted `write` on `t1` passes `read` and `write` checks but fails an
`admin` check. -/
theorem C7_permission_check_monotonic :
    (∀ (st : TopicValidator.PermState) (topic agent : String)
        (held required : PermissionLevel),
        firstPermLevel st topic agent = some held →
        TopicValidator.level_hierarchy required ≤ TopicValidator.level_hierarchy held →
        TopicValidator.check_permission st topic agent required = true) ∧
    (∀ (st : TopicValidator.PermState) (topic agent : String)
        (required : PermissionLevel),
        firstPermLevel st topic agent = none →
        TopicValidator.check_permission st topic agent required = false) ∧
    (TopicValidator.check_permission
        (TopicValidator.grant_permission [] "t1" "A" PermissionLevel.write "root")
        "t1" "A" PermissionLevel.read = true ∧
      TopicValidator.check_permission
        (TopicValidator.grant_permission [] "t1" "A" PermissionLevel.write "root")
        "t1" "A" PermissionLevel.write = true ∧
      TopicValidator.check_permission
        (TopicValidator.grant_permission [] "t1" "A" PermissionLevel.write "root")
        "t1" "A" PermissionLevel.admin = false) := by
  refine ⟨?_, ?_, by decide, by decide, by decide⟩
  · intro st topic agent held required hfl hle
    rw [firstPermLevel] at hfl
    cases hlook : List.lookup topic (st : List (String × List TopicPermission)) with
    | none => simp only [hlook] at hfl; exact Option.noConfusion hfl
    | some perms =>
      simp only [hlook] at hfl
      cases hfind : perms.find? (fun p => p.agent_id == agent) with
      | none => rw [hfind] at hfl; exact Option.noConfusion hfl
      | some p =>
        rw [hfind] at hfl
        simp at hfl
        simp [TopicValidator.check_permission, hlook, hfind,
          TopicValidator.permission_level_sufficient, hfl, hle]
  · intro st topic agent required hfl
    rw [firstPermLevel] at hfl
    cases hlook : List.lookup topic (st : List (String × List TopicPermission)) with
    | none => simp [TopicValidator.check_permission, hlook]
    | some perms =>
      simp only [hlook] at hfl
      cases hfind : perms.find? (fun p => p.agent_id == agent) with
      | none => simp [TopicValidator.check_permission, hlook, hfind]
      | some p => rw [hfind] at hfl; exact Option.noConfusion hfl

/-- Claim C7 witness: the monotonicity branch applied to the concrete state
where agent `A` holds `write` on `t1` and a `read` check is made. -/
theorem C7_permission_check_monotonic_witness :
    TopicValidator.check_permission
      (TopicValidator.grant_permission [] "t1" "A" PermissionLevel.write "root")
      "t1" "A" PermissionLevel.read = true :=
  C7_permission_check_monotonic.1
    (TopicValidator.grant_permission [] "t1" "A" PermissionLevel.write "root")
    "t1" "A" PermissionLevel.write PermissionLevel.read (by decide) (by decide)

/-! ## Claim C8 -/

/-- Claim C8: topic-name validation boundaries.  Every name over `[a-z0-9-]`
with no consecutive or edge hyphens that is not reserved is accepted at
lengths 3 and 50; every name of length 2 or 51 is rejected; `ab--cd`,
`-abc` and `abc-` are rejected; every reserved name is rejected. -/
theorem C8_topic_name_boundaries :
    (∀ s : String,
      TopicValidator.charsetOk s = true →
      pyContains s "--" = false →
      (pyStartsWith s "-" || pyEndsWith s "-") = false →
      TopicValidator.reserved_topics.contains (pyLower s) = false →
      s.length = 3 ∨ s.length = 50 →
      TopicValidator.validate_topic_name s none = true) ∧
    (∀ s : String, s.length = 2 ∨ s.length = 51 →
      TopicValidator.validate_topic_name s none = false) ∧
    TopicValidator.validate_topic_name "ab--cd" none = false ∧
    TopicValidator.validate_topic_name "-abc" none = false ∧
    TopicValidator.validate_topic_name "abc-" none = false ∧
    (∀ rname ∈ TopicValidator.reserved_topics,
      TopicValidator.validate_topic_name rname none = false) := by
  refine ⟨?_, ?_, by decide, by decide, by decide, by decide⟩
  · intro s hcs hcons hedge hres hlen
    have hres2 : pyLower s ∉ TopicValidator.reserved_topics := by
      intro hmem
      have hc : TopicValidator.reserved_topics.contains (pyLower s) = true :=
        List.elem_iff.mpr hmem
      rw [hres] at hc
      exact Bool.false_ne_true hc
    rcases hlen with hlen | hlen <;>
      simp [TopicValidator.validate_topic_name, TopicValidator.topicNameErrors,
        TopicValidator.min_topic_length, TopicValidator.max_topic_length,
        hlen, hcs, hcons, hedge, hres2]
  · intro s hlen
    rcases hlen with hlen | hlen <;>
      simp [TopicValidator.validate_topic_name, TopicValidator.topicNameErrors,
        TopicValidator.min_topic_length, TopicValidator.max_topic_length, hlen]

/-- Claim C8 witness: the acceptance branch applied to the 3-character name
`abc`. -/
theorem C8_topic_name_boundaries_witness :
    TopicValidator.validate_topic_name "abc" none = true :=
  C8_topic_name_boundaries.1 "abc" (by decide) (by decide) (by decide) (by decide)
    (Or.inl (by decide))

/-! ## Claim C9 -/

/-- A rule whose evaluation yields no match contributes nothing to the
routed target set. -/
theorem routeTargets_skips_nonmatching (regexSearch : String → String → Bool)
    (message : AgentMessage) (rule : RoutingRule)
    (h : MessageRouter.evaluate_rule regexSearch message rule = false)
    (l1 l2 : List RoutingRule) :
    ∀ acc, MessageRouter.routeTargets regexSearch message (l1 ++ rule :: l2) acc =
      MessageRouter.routeTargets regexSearch message (l1 ++ l2) acc := by
  induction l1 with
  | nil =>
    intro acc
    cases hact : rule.active with
    | false => simp [MessageRouter.routeTargets, hact]
    | true => simp [MessageRouter.routeTargets, hact, h]
  | cons y ys ih =>
    intro acc
    cases hacty : y.active with
    | false => simp [MessageRouter.routeTargets, hacty, ih]
    | true =>
      cases hevaly : MessageRouter.evaluate_rule regexSearch message y with
      | false => simp [MessageRouter.routeTargets, hacty, hevaly, ih]
      | true => simp [MessageRouter.routeTargets, hacty, hevaly, ih]

/-- Claim C9: a custom predicate that raises is treated as a non-match and
the exception never propagates — rule evaluation returns `false`, the
routing result is unchanged by the presence of the raising rule, and a
subscription filter whose custom predicate raises rejects the message. -/
theorem C9_raising_custom_predicate_is_nonmatch :
    (∀ (regexSearch : String → String → Bool) (message : AgentMessage)
        (rule : RoutingRule) (f : AgentMessage → Except String Bool) (e : String),
        rule.rule_type = RoutingRuleType.custom →
        rule.condition = RuleCondition.fn f →
        f message = Except.error e →
        MessageRouter.evaluate_rule regexSearch message rule = false) ∧
    (∀ (regexSearch : String → String → Bool) (message : AgentMessage)
        (rules1 rules2 : List RoutingRule) (rule : RoutingRule)
        (f : AgentMessage → Except String Bool) (e : String),
        rule.rule_type = RoutingRuleType.custom →
        rule.condition = RuleCondition.fn f →
        f message = Except.error e →
        MessageRouter.route_message regexSearch (rules1 ++ rule :: rules2) message =
          MessageRouter.route_message regexSearch (rules1 ++ rules2) message) ∧
    (∀ (regexSearch : String → String → Bool) (message : AgentMessage)
        (fc : SubscriptionFilter) (f : AgentMessage → Except String Bool) (e : String),
        fc.custom_filter = some f →
        f message = Except.error e →
        SubscriptionManager.message_matches_filter regexSearch message (some fc) = false) := by
  have heval : ∀ (regexSearch : String → String → Bool) (message : AgentMessage)
      (rule : RoutingRule) (f : AgentMessage → Except String Bool) (e : String),
      rule.rule_type = RoutingRuleType.custom →
      rule.condition = RuleCondition.fn f →
      f message = Except.error e →
      MessageRouter.evaluate_rule regexSearch message rule = false := by
    intro regexSearch message rule f e ht hc he
    simp [MessageRouter.evaluate_rule, MessageRouter.evaluateRuleBody, ht, hc, he]
  refine ⟨heval, ?_, ?_⟩
  · intro regexSearch message rules1 rules2 rule f e ht hc he
    exact routeTargets_skips_nonmatching regexSearch message rule
      (heval regexSearch message rule f e ht hc he) rules1 rules2 []
  · intro regexSearch message fc f e hf he
    simp [SubscriptionManager.message_matches_filter, hf, he]

/-- The raising predicate used to witness claim C9. -/
def raisingPred : AgentMessage → Except String Bool := fun _ => Except.error "boom"

def ruleRaising : RoutingRule :=
  { rule_id := "c9", rule_type := .custom, condition := .fn raisingPred,
    target_topics := ["x"], priority := 0, active := true }

def fcRaising : SubscriptionFilter :=
  { SubscriptionFilter.empty with custom_filter := some raisingPred }

/-- Claim C9 witness: the theorem applied to a concrete raising predicate. -/
theorem C9_raising_custom_predicate_is_nonmatch_witness :
    MessageRouter.evaluate_rule anyRegex msgOps ruleRaising = false ∧
    MessageRouter.route_message anyRegex [ruleRaising] msgOps =
      MessageRouter.route_message anyRegex [] msgOps ∧
    SubscriptionManager.message_matches_filter anyRegex msgOps (some fcRaising) = false :=
  ⟨C9_raising_custom_predicate_is_nonmatch.1 anyRegex msgOps ruleRaising
      raisingPred "boom" rfl rfl rfl,
   C9_raising_custom_predicate_is_nonmatch.2.1 anyRegex msgOps [] [] ruleRaising
      raisingPred "boom" rfl rfl rfl,
   C9_raising_custom_predicate_is_nonmatch.2.2 anyRegex msgOps fcRaising
      raisingPred "boom" rfl rfl⟩

/-! ## Claim C10 -/

/-- The subscriptions currently registered on a topic. -/
def subsOnTopic (st : SubscriptionManager.State) (topic : String) :
    List TopicSubscription :=
  (List.lookup topic st.subscriptions).getD []

def subB : TopicSubscription :=
  { topic := "ops", agent_id := "B", subscription_type := .all_messages,
    filter_criteria := none, active := true, message_count := 0,
    last_message_at := none }

/-- State in which only agent `B` subscribes to `ops`. -/
def subStateB : SubscriptionManager.State :=
  { subscriptions := [("ops", [subB])],
    agent_subscriptions := [("B", [subB])],
    handler_keys := [] }

/-- Claim C10: the boolean result of `unsubscribe_agent_from_topic` reports
whether the topic key exists in the registry, not whether a subscription of
the given agent was removed: it is `true` whenever any subscription exists
on the topic (also for an agent holding none there, as the concrete state
with only agent B subscribed shows for agent A), and `false` only when the
topic has no subscriptions at all. -/
theorem C10_unsubscribe_reports_topic_presence :
    (∀ (st : SubscriptionManager.State) (agent topic : String),
      (SubscriptionManager.unsubscribe_agent_from_topic st agent topic).1 =
        (List.lookup topic st.subscriptions).isSome) ∧
    (∀ (st : SubscriptionManager.State) (agent topic : String)
        (s : TopicSubscription), s ∈ subsOnTopic st topic →
      (SubscriptionManager.unsubscribe_agent_from_topic st agent topic).1 = true) ∧
    (∀ (st : SubscriptionManager.State) (agent topic : String),
      (SubscriptionManager.unsubscribe_agent_from_topic st agent topic).1 = false →
      subsOnTopic st topic = []) ∧
    ((SubscriptionManager.unsubscribe_agent_from_topic subStateB "A" "ops").1 = true ∧
      (subsOnTopic subStateB "ops").all (fun s => s.agent_id != "A") = true) := by
  have key : ∀ (st : SubscriptionManager.State) (agent topic : String),
      (SubscriptionManager.unsubscribe_agent_from_topic st agent topic).1 =
        (List.lookup topic st.subscriptions).isSome := fun _ _ _ => rfl
  refine ⟨key, ?_, ?_, rfl, rfl⟩
  · intro st agent topic s hs
    rw [key]
    cases hlook : List.lookup topic st.subscriptions with
    | none => simp [subsOnTopic, hlook] at hs
    | some l => rfl
  · intro st agent topic h
    rw [key] at h
    cases hlook : List.lookup topic st.subscriptions with
    | none => simp [subsOnTopic, hlook]
    | some l => rw [hlook] at h; exact Bool.noConfusion h

/-- Claim C10 witness: the theorem applied to the concrete state where only
agent B subscribes to `ops` and agent A unsubscribes. -/
theorem C10_unsubscribe_reports_topic_presence_witness :
    (SubscriptionManager.unsubscribe_agent_from_topic subStateB "A" "ops").1 = true :=
  C10_unsubscribe_reports_topic_presence.2.1 subStateB "A" "ops" subB
    (List.mem_singleton.mpr rfl)
